import Mathlib

/-!
Shallow embedding of the mcp-compute-scout resource-checking engine
(`src/mcp_compute_scout/parsers.py` and `src/mcp_compute_scout/server_checker.py`).

Python floats are modelled as rationals (ℚ): every numeric literal the
remote commands emit is a decimal numeral, which a rational represents
exactly.  Python exceptions are modelled as `Except` errors; `None` as
`Option.none`; a dict key that may be missing or may hold `None` is
modelled as `Option (Option _)` (outer `none` = key absent, `some none`
= key present holding `None`).  String manipulation is carried out on
`List Char` (`String.data`) with structurally recursive helpers, so
every definition evaluates inside the kernel.
-/

namespace ComputeScout

/-- The characters Python's `str.strip` (and `float`/`int` argument
trimming) removes. -/
def pyWs (c : Char) : Bool :=
  c = ' ' ∨ c = '\t' ∨ c = '\n' ∨ c = '\r' ∨ c = '\x0b' ∨ c = '\x0c'

/-- Python `str.strip()` on a character list. -/
def trimL (cs : List Char) : List Char :=
  ((cs.dropWhile pyWs).reverse.dropWhile pyWs).reverse

/-- Python `str.rstrip(extra)` for a single repeated character class:
drop matching characters from the right. -/
def dropRightL (p : Char → Bool) (cs : List Char) : List Char :=
  (cs.reverse.dropWhile p).reverse

/-- Python `s.split(sep)` for a one-character separator `sep`
(empty chunks are kept, as in Python). -/
def splitOnCharL (sep : Char) (cs : List Char) : List (List Char) :=
  cs.splitOnP (fun x => x = sep)

/-- Python `needle in hay` substring containment on character lists. -/
def containsSubL (needle : List Char) : List Char → Bool
  | [] => needle.isEmpty
  | c :: rest => needle.isPrefixOf (c :: rest) || containsSubL needle rest

/-- ASCII lower-casing of one character, as Python `str.lower` acts on
the ASCII output of the remote commands. -/
def lowerCharL (c : Char) : Char :=
  if 65 ≤ c.toNat ∧ c.toNat ≤ 90 then Char.ofNat (c.toNat + 32) else c

/-- Python `str.lower()` on a character list (ASCII range). -/
def toLowerL (cs : List Char) : List Char :=
  cs.map lowerCharL

/-- Value of a non-empty, all-digit character list, `none` otherwise. -/
def digitsVal (cs : List Char) : Option Nat :=
  if cs ≠ [] ∧ cs.all Char.isDigit then
    some (cs.foldl (fun a c => a * 10 + (c.toNat - 48)) 0)
  else none

/-- Unsigned decimal value of a digit list (junk-free by the caller). -/
def digitsNum (cs : List Char) : Nat :=
  cs.foldl (fun a c => a * 10 + (c.toNat - 48)) 0

/-- Model of Python `float(s)` restricted to plain decimal numerals:
optional surrounding whitespace, optional sign, digits with at most one
decimal point and at least one digit.  (Python's `float` also accepts
exponent forms, `inf`/`nan` and digit-group underscores; the remote
metric commands never produce those, and no claim depends on them.)
`none` models a raised `ValueError`. -/
def pyFloatL (cs : List Char) : Option ℚ :=
  let t := trimL cs
  let sgn : ℚ := if t.head? = some '-' then -1 else 1
  let body := if t.head? = some '-' ∨ t.head? = some '+' then t.tail else t
  match splitOnCharL '.' body with
  | [i] => (digitsVal i).map (fun n => sgn * (n : ℚ))
  | [i, f] =>
    if i.all Char.isDigit ∧ f.all Char.isDigit ∧ (i ≠ [] ∨ f ≠ []) then
      some (sgn * ((digitsNum i : ℚ) + (digitsNum f : ℚ) / 10 ^ f.length))
    else none
  | _ => none

/-- Model of Python `int(s)` on decimal numerals: optional surrounding
whitespace, optional sign, digits.  `none` models a raised
`ValueError`. -/
def pyIntL (cs : List Char) : Option Int :=
  let t := trimL cs
  let sgn : Int := if t.head? = some '-' then -1 else 1
  let body := if t.head? = some '-' ∨ t.head? = some '+' then t.tail else t
  (digitsVal body).map (fun n => sgn * (n : Int))

/-- Round to the nearest integer, ties to even — Python 3 `round`'s
rule.  (Python rounds the binary-float value; on the decimal quotients
the metric pipeline produces, this agrees with rounding the exact
rational except for floating-point representation artifacts at exact
halves, which no claim exercises.) -/
def roundHalfEven (q : ℚ) : Int :=
  let f : Int := q.floor
  let r : ℚ := q - (f : ℚ)
  if r < 1 / 2 then f
  else if 1 / 2 < r then f + 1
  else if f % 2 = 0 then f else f + 1

/-- Python `round(q, 1)`. -/
def pyRound1 (q : ℚ) : ℚ :=
  (roundHalfEven (q * 10) : ℚ) / 10

/-! ### parsers.py -/

/-- `parsers.parse_cpu_usage`: empty output is `None`; otherwise strip
whitespace and all trailing `%` characters and parse as a float,
`None` on `ValueError`. -/
def parse_cpu_usage (output : String) : Option ℚ :=
  if output = "" then none
  else pyFloatL (dropRightL (fun c => c = '%') (trimL output.data))

/-- `parsers.parse_memory_usage`: empty output is `None`; otherwise
`float(output.strip())`, `None` on `ValueError`.  (No `%`-stripping,
unlike `parse_cpu_usage`.) -/
def parse_memory_usage (output : String) : Option ℚ :=
  if output = "" then none
  else pyFloatL (trimL output.data)

/-- Python `re.split(r'[,\s]+', s)`: split on maximal runs of commas
and whitespace.  Modelled by splitting on each such character and
dropping the empty chunks that arise between adjacent separator
characters; on the already-stripped input the parser feeds it, this
is exactly the regex split. -/
def reSplitCommaWsL (cs : List Char) : List (List Char) :=
  (cs.splitOnP (fun c => c = ',' || pyWs c)).filter (fun t => ¬t.isEmpty)

/-- `parsers.parse_load_average`: split the stripped output on commas
or whitespace runs, require at least three chunks, parse the first
three as floats; any `ValueError` (or fewer than three chunks) gives
`None`. -/
def parse_load_average (output : String) : Option (ℚ × ℚ × ℚ) :=
  if output = "" then none
  else
    match reSplitCommaWsL (trimL output.data) with
    | a :: b :: c :: _ =>
      match pyFloatL a, pyFloatL b, pyFloatL c with
      | some x, some y, some z => some (x, y, z)
      | _, _, _ => none
    | _ => none

/-- `parsers.parse_gpu_usage`: one integer percentage per line; lines
that fail `int()` are skipped; an empty result list is reported as
`None`, as is empty output or a "not found" marker. -/
def parse_gpu_usage (output : String) : Option (List Int) :=
  if output = "" ∨ containsSubL "not found".data (toLowerL output.data) then none
  else
    let vals := (splitOnCharL '\n' (trimL output.data)).filterMap
      (fun line => pyIntL (trimL line))
    if vals.isEmpty then none else some vals

/-- One parsed line of `nvidia-smi` memory output: `used,total` in MB
plus the derived percentage. -/
structure GpuMemEntry where
  used_mb : Int
  total_mb : Int
  used_percent : ℚ
  deriving DecidableEq, Repr

/-- One line of `parsers.parse_gpu_memory`: split on commas, need at
least two fields, parse both as ints, derive
`used_percent = round(used/total*100, 1)` or `0` when `total` is not
positive.  `none` models the `continue` on a malformed line. -/
def parse_gpu_memory_line (line : List Char) : Option GpuMemEntry :=
  match splitOnCharL ',' (trimL line) with
  | p0 :: p1 :: _ =>
    match pyIntL (trimL p0), pyIntL (trimL p1) with
    | some used, some total =>
      some ⟨used, total,
        if 0 < total then pyRound1 ((used : ℚ) / (total : ℚ) * 100) else 0⟩
    | _, _ => none
  | _ => none

/-- `parsers.parse_gpu_memory`: per-line parse, skipping malformed
lines; zero valid entries (or empty output, or a "not found" marker)
is `None`, never an empty present list. -/
def parse_gpu_memory (output : String) : Option (List GpuMemEntry) :=
  if output = "" ∨ containsSubL "not found".data (toLowerL output.data) then none
  else
    let entries := (splitOnCharL '\n' (trimL output.data)).filterMap
      parse_gpu_memory_line
    if entries.isEmpty then none else some entries

/-- One parsed line of GPU process output (`pid,name,memory`), all kept
as trimmed strings, as in the source. -/
structure GpuProcEntry where
  pid : String
  pname : String
  memory_mb : String
  deriving DecidableEq, Repr

/-- One line of `parsers.parse_gpu_processes`: blank lines and lines
with fewer than three comma-separated fields are skipped. -/
def parse_gpu_processes_line (line : List Char) : Option GpuProcEntry :=
  if (trimL line).isEmpty then none
  else
    match (splitOnCharL ',' line).map trimL with
    | p0 :: p1 :: p2 :: _ => some ⟨String.mk p0, String.mk p1, String.mk p2⟩
    | _ => none

/-- `parsers.parse_gpu_processes`: per-line parse; zero valid entries
(or empty output, or a "not found" marker) is `None`. -/
def parse_gpu_processes (output : String) : Option (List GpuProcEntry) :=
  if output = "" ∨ containsSubL "not found".data (toLowerL output.data) then none
  else
    let procs := (splitOnCharL '\n' (trimL output.data)).filterMap
      parse_gpu_processes_line
    if procs.isEmpty then none else some procs

/-! ### server_checker.py — remote command executor -/

/-- The observable outcome of one `subprocess.run` of the ssh command:
either the process completed with an exit code, captured stdout and
captured stderr, or it exceeded the configured timeout. -/
inductive SSHOutcome where
  | completed (returncode : Int) (stdout stderr : String)
  | timedOut
  deriving DecidableEq

/-- The distinct failure raise-sites of `ServerChecker._run_ssh_command`,
one constructor per classified error. -/
inductive SSHError where
  | unknownHost (host : String)
  | connectionRefused (host : String)
  | permissionDenied (host : String)
  | remoteCommandError (stderrTrimmed : String)
  | timeout (host : String)
  deriving DecidableEq

/-- `str(e)` of the exception that escapes `_run_ssh_command`.  The
classified errors are raised inside the `try` block and re-wrapped by
the final `except Exception` handler as `"SSH failed: ..."`; the
timeout is raised from the `TimeoutExpired` handler and escapes
unwrapped. -/
def SSHError.message : SSHError → String
  | .unknownHost h => "SSH failed: Unknown host: " ++ h
  | .connectionRefused h => "SSH failed: Connection refused to " ++ h
  | .permissionDenied h => "SSH failed: Permission denied for " ++ h
  | .remoteCommandError s => "SSH failed: SSH error: " ++ s
  | .timeout h => "Connection timeout to " ++ h

/-- `ServerChecker._run_ssh_command`: on exit code 0 return the trimmed
stdout; on a non-zero exit classify by searching stderr, in order, for
the unresolved-hostname, connection-refused and permission-denied
markers, falling back to a generic error carrying the trimmed stderr;
on timeout raise the timeout error. -/
def run_ssh_command (host : String) : SSHOutcome → Except SSHError String
  | .timedOut => .error (.timeout host)
  | .completed rc out err =>
    if rc ≠ 0 then
      if containsSubL "Could not resolve hostname".data err.data then
        .error (.unknownHost host)
      else if containsSubL "Connection refused".data err.data then
        .error (.connectionRefused host)
      else if containsSubL "Permission denied".data err.data then
        .error (.permissionDenied host)
      else
        .error (.remoteCommandError (String.mk (trimL err.data)))
    else .ok (String.mk (trimL out.data))

/-! ### server_checker.py — snapshots and the per-host check -/

/-- `config.ServerConfig`: one host descriptor. -/
structure ServerConfig where
  sname : String
  host : String
  has_gpu : Bool
  deriving DecidableEq

/-- The result dict built by `ServerChecker._check_server_sync`.
A field of type `Option (Option α)` models a dict key that may be
absent (`none`) or present holding a parse result that may itself be
`None` (`some none`). -/
structure Snapshot where
  sname : String
  host : String
  has_gpu : Bool
  checked_at : ℚ
  online : Bool
  cpu_usage : Option (Option ℚ)
  memory_usage : Option (Option ℚ)
  load_average : Option (Option (ℚ × ℚ × ℚ))
  gpu_usage : Option (Option (List Int))
  gpu_memory : Option (Option (List GpuMemEntry))
  gpu_processes : Option (Option (List GpuProcEntry))
  error : Option String
  gpu_error : Option String
  deriving DecidableEq

/-- The outcome of each remote command `_check_server_sync` may issue
for one host, in source order. -/
structure CmdOutcomes where
  cpu : SSHOutcome
  memory : SSHOutcome
  load : SSHOutcome
  gpu_usage : SSHOutcome
  gpu_memory : SSHOutcome
  gpu_processes : SSHOutcome
  deriving DecidableEq

/-- The GPU block of `_check_server_sync` (the inner `try`): run the
GPU usage and GPU memory commands and, when a `gpu_processes` command
is configured, the process listing; the first failure stops the block
and is recorded as `gpu_error`, keeping the fields already set.
Returns (`gpu_usage`, `gpu_memory`, `gpu_processes`, `gpu_error`)
exactly as the keys end up in the dict. -/
def runGpuStage (host : String) (hasGpuProcCmd : Bool) (oc : CmdOutcomes) :
    Option (Option (List Int)) × Option (Option (List GpuMemEntry)) ×
      Option (Option (List GpuProcEntry)) × Option String :=
  match run_ssh_command host oc.gpu_usage with
  | .error e => (none, none, none, some e.message)
  | .ok guOut =>
    let gu := some (parse_gpu_usage guOut)
    match run_ssh_command host oc.gpu_memory with
    | .error e => (gu, none, none, some e.message)
    | .ok gmOut =>
      let gm := some (parse_gpu_memory gmOut)
      if hasGpuProcCmd then
        match run_ssh_command host oc.gpu_processes with
        | .error e => (gu, gm, none, some e.message)
        | .ok gpOut => (gu, gm, some (parse_gpu_processes gpOut), none)
      else (gu, gm, none, none)

/-- `ServerChecker._check_server_sync`: run the cpu, memory and
load-average commands in order; the first failure aborts the `try`
block, leaving the keys already written, marking `online=False` and
recording the error.  When all three succeed and the host is
GPU-capable, run the GPU block (whose failure is GPU-local) and mark
`online=True`.  `now` is the `time.time()` taken at entry;
`hasGpuProcCmd` models `'gpu_processes' in self.config.commands`. -/
def check_server_sync (server : ServerConfig) (hasGpuProcCmd : Bool)
    (now : ℚ) (oc : CmdOutcomes) : Snapshot :=
  match run_ssh_command server.host oc.cpu with
  | .error e =>
    ⟨server.sname, server.host, server.has_gpu, now, false,
      none, none, none, none, none, none, some e.message, none⟩
  | .ok cpuOut =>
    let cpu := some (parse_cpu_usage cpuOut)
    match run_ssh_command server.host oc.memory with
    | .error e =>
      ⟨server.sname, server.host, server.has_gpu, now, false,
        cpu, none, none, none, none, none, some e.message, none⟩
    | .ok memOut =>
      let mem := some (parse_memory_usage memOut)
      match run_ssh_command server.host oc.load with
      | .error e =>
        ⟨server.sname, server.host, server.has_gpu, now, false,
          cpu, mem, none, none, none, none, some e.message, none⟩
      | .ok loadOut =>
        let load := some (parse_load_average loadOut)
        if server.has_gpu then
          let g := runGpuStage server.host hasGpuProcCmd oc
          ⟨server.sname, server.host, server.has_gpu, now, true,
            cpu, mem, load, g.1, g.2.1, g.2.2.1, none, g.2.2.2⟩
        else
          ⟨server.sname, server.host, server.has_gpu, now, true,
            cpu, mem, load, none, none, none, none, none⟩

/-! ### server_checker.py — cache and the async wrappers -/

/-- The checker's `_cache` dict, keyed by server name. -/
def CacheMap : Type := String → Option Snapshot

/-- Python dict assignment `cache[k] = v`. -/
def cachePut (c : CacheMap) (k : String) (v : Snapshot) : CacheMap :=
  fun x => if x = k then some v else c x

/-- The per-host environment of one `check_server` call: the clock
reading at the cache-freshness test, the clock reading taken inside
`_check_server_sync`, the outcome of every remote command the check
may issue, and whether a `gpu_processes` command is configured. -/
structure HostEnv where
  now : ℚ
  checkTime : ℚ
  hasGpuProcCmd : Bool
  oc : CmdOutcomes

/-- `ServerChecker.check_server`: serve the cached snapshot when
caching is on, the key exists and the entry is younger than the TTL;
otherwise run the synchronous check and unconditionally write the
result back into the cache.  Returns the snapshot and the cache state
after the call. -/
def check_server (ttl : ℚ) (cache : CacheMap) (use_cache : Bool)
    (server : ServerConfig) (env : HostEnv) : Snapshot × CacheMap :=
  let fresh := check_server_sync server env.hasGpuProcCmd env.checkTime env.oc
  if use_cache then
    match cache server.sname with
    | some cached =>
      if env.now - cached.checked_at < ttl then (cached, cache)
      else (fresh, cachePut cache server.sname fresh)
    | none => (fresh, cachePut cache server.sname fresh)
  else (fresh, cachePut cache server.sname fresh)

/-- `ServerChecker.check_servers`: `asyncio.gather` over one
`check_server` task per requested host, returning the snapshots in
task-creation order — the order of the input list — whatever order the
individual checks complete in.  Each task is modelled against the
cache state at dispatch time (`cache`); completion order influences
only the final cache content, not the returned list. -/
def check_servers (ttl : ℚ) (cache : CacheMap) (use_cache : Bool)
    (servers : List ServerConfig) (env : ServerConfig → HostEnv) :
    List Snapshot :=
  servers.map (fun s => (check_server ttl cache use_cache s (env s)).1)

/-! ### server_checker.py — selection engine
(`ServerChecker.find_best_server`, filter-and-rank stage) -/

/-- The filter loop body of `find_best_server` over one online
snapshot.  `server.get(k)` with no default yields `None` both for an
absent key and for a present key holding `None`, so both are dropped;
`max_cpu` keeps `cpu ≤ max_cpu`, the memory constraint keeps
`mem ≤ 80`, and `need_gpu` keeps only a present, non-`None`, non-empty
GPU utilization list (Python truthiness). -/
def passesFilters (need_gpu : Bool) (max_cpu : Option ℚ)
    (min_memory_gb : Option Int) (s : Snapshot) : Bool :=
  (match max_cpu with
   | none => true
   | some m =>
     match s.cpu_usage with
     | some (some c) => decide (c ≤ m)
     | _ => false) &&
  (match min_memory_gb with
   | none => true
   | some _ =>
     match s.memory_usage with
     | some (some u) => decide (u ≤ 80)
     | _ => false) &&
  (if need_gpu then
     match s.gpu_usage with
     | some (some l) => !l.isEmpty
     | _ => false
   else true)

/-- The `online_servers`/`filtered` lists of `find_best_server`:
drop offline snapshots, then apply the criteria filters, preserving
the input batch order. -/
def filteredCandidates (results : List Snapshot) (need_gpu : Bool)
    (max_cpu : Option ℚ) (min_memory_gb : Option Int) : List Snapshot :=
  (results.filter (fun s => s.online)).filter
    (passesFilters need_gpu max_cpu min_memory_gb)

/-- The mean-GPU-utilization term of `score_server`:
`sum(gpu_usage)/len(gpu_usage)` when `server.get('gpu_usage')` is
truthy (present, non-`None`, non-empty), `0` otherwise. -/
def gpuScoreTerm (s : Snapshot) : ℚ :=
  match s.gpu_usage with
  | some (some []) => 0
  | some (some l) => ((l.foldl (fun a x => a + x) 0 : Int) : ℚ) / (l.length : ℚ)
  | _ => 0

/-- The sort key `score_server` of `find_best_server`:
`server.get('cpu_usage', 100)` falls back to `100` only when the key
is absent; a present key holding `None` yields `None`, and
`None + ...` raises `TypeError` — modelled as `none`. -/
def score_server (s : Snapshot) : Option ℚ :=
  let cpu : Option ℚ := match s.cpu_usage with | none => some 100 | some v => v
  let mem : Option ℚ := match s.memory_usage with | none => some 100 | some v => v
  match cpu, mem with
  | some c, some m => some (c + m + gpuScoreTerm s)
  | _, _ => none

/-- The filter-and-rank stage of `find_best_server` over an
already-checked batch of snapshots: return `none` when the filtered
list is empty; otherwise stable-sort by `score_server` (Python's
`list.sort` is stable; `List.insertionSort` with the reflexive key
order is the same stable sort) and return the head.  Computing the
sort keys raises `TypeError` when any filtered snapshot's
`cpu_usage`/`memory_usage` key holds `None`; the raise is modelled as
`Except.error`. -/
def selectBest (results : List Snapshot) (need_gpu : Bool)
    (max_cpu : Option ℚ) (min_memory_gb : Option Int) :
    Except String (Option Snapshot) :=
  let filtered := filteredCandidates results need_gpu max_cpu min_memory_gb
  if filtered.isEmpty then .ok none
  else if filtered.all (fun s => (score_server s).isSome) then
    .ok ((filtered.insertionSort
      (fun a b => (score_server a).getD 0 ≤ (score_server b).getD 0)).head?)
  else .error "TypeError: unsupported operand type(s) for +"

/-! ### Spec-side definitions, for the refinement comparison -/

/-- Modelled from the spec: the selection score
`cpuUsage + memoryUsage + meanGPUUtilization`, the GPU term being `0`
when GPU utilization is absent.  Only compared with the source's
`score_server` on candidates whose cpu and memory usage are present
numbers, where the `getD` defaults never apply. -/
def specScore (s : Snapshot) : ℚ :=
  (s.cpu_usage.join.getD 0) + (s.memory_usage.join.getD 0) +
    (match s.gpu_usage with
     | some (some []) => 0
     | some (some l) => ((l.foldl (fun a x => a + x) 0 : Int) : ℚ) / (l.length : ℚ)
     | _ => 0)

/-- Modelled from the spec: the first element of the list attaining
the minimal score — "lower score wins" with the stable "first-seen
wins" tie-break. -/
def firstMinBy (f : Snapshot → ℚ) : List Snapshot → Option Snapshot
  | [] => none
  | x :: xs =>
    match firstMinBy f xs with
    | none => some x
    | some y => if f x ≤ f y then some x else some y

end ComputeScout

/-- Decidable equality on `Except`, for evaluating the selection stage
at concrete inputs. -/
instance {ε α : Type} [DecidableEq ε] [DecidableEq α] :
    DecidableEq (Except ε α) := fun a b =>
  match a, b with
  | .ok x, .ok y =>
    if h : x = y then .isTrue (by rw [h]) else .isFalse (by simp [h])
  | .error x, .error y =>
    if h : x = y then .isTrue (by rw [h]) else .isFalse (by simp [h])
  | .ok _, .error _ => .isFalse (by simp)
  | .error _, .ok _ => .isFalse (by simp)

namespace ComputeScout

/-! ### Concrete fixtures used by counterexamples and witnesses -/

/-- A command that exits 0 printing `s`. -/
def okOut (s : String) : SSHOutcome := .completed 0 s ""

/-- A command that fails with a connection-refused stderr. -/
def failRefused : SSHOutcome :=
  .completed 255 "" "ssh: connect to host a port 22: Connection refused"

/-- Command outcomes whose memory probe fails and whose other probes
succeed. -/
def ocMemFail : CmdOutcomes :=
  ⟨okOut "10.0", failRefused, okOut "1 2 3", okOut "", okOut "", okOut ""⟩

/-- Command outcomes that all succeed, with GPU data present. -/
def ocAllOk : CmdOutcomes :=
  ⟨okOut "10.0", okOut "20.0", okOut "0.1, 0.2, 0.3",
    okOut "45", okOut "1000,4000", okOut "123, python, 456"⟩

/-- Command outcomes whose GPU-usage probe fails after the three
mandatory probes succeed. -/
def ocGpuFail : CmdOutcomes :=
  ⟨okOut "10.0", okOut "20.0", okOut "0.1, 0.2, 0.3",
    failRefused, okOut "", okOut ""⟩

/-- An online snapshot whose cpu/memory keys are present but hold
`None` (the shape `_check_server_sync` produces when the mandatory
command output is unparseable). -/
def snapNoneCpu : Snapshot :=
  ⟨"a", "a", false, 0, true, some none, some none, some none,
    none, none, none, none, none⟩

/-- An online GPU-less snapshot with given cpu/memory percentages. -/
def snapCpu (nm : String) (c m : ℚ) : Snapshot :=
  ⟨nm, nm, false, 0, true, some (some c), some (some m), some none,
    none, none, none, none, none⟩

/-- The GPU-stage keys (`gpu_usage`, `gpu_memory`, `gpu_processes`,
`gpu_error`) are all absent from the snapshot. -/
def gpuFieldsAbsent (s : Snapshot) : Prop :=
  s.gpu_usage = none ∧ s.gpu_memory = none ∧ s.gpu_processes = none ∧
    s.gpu_error = none

/-- A cache holding one snapshot for host "a", captured at time 0. -/
def cacheA : CacheMap :=
  fun x => if x = "a" then some (snapCpu "a" 1 1) else none

/-- A host environment with the freshness check at time 5. -/
def envA : HostEnv := ⟨5, 6, false, ocAllOk⟩

end ComputeScout

namespace ComputeScout

/-! ### Claim theorems -/

/-- Claim C6: for every input list of hosts, `check_servers` returns a
list of the same length whose i-th snapshot is the result of checking
the i-th requested host — every host gets exactly one result, in input
order, with completion order affecting only the cache, never the
returned list. -/
theorem check_servers_preserves_order (ttl : ℚ) (cache : CacheMap)
    (use_cache : Bool) (servers : List ServerConfig)
    (env : ServerConfig → HostEnv) :
    (check_servers ttl cache use_cache servers env).length = servers.length ∧
    ∀ i : Nat, (check_servers ttl cache use_cache servers env)[i]? =
      (servers[i]?).map
        (fun s => (check_server ttl cache use_cache s (env s)).1) := by
  refine ⟨by simp [check_servers], fun i => ?_⟩
  simp [check_servers, List.getElem?_map]

/-- Claim C5: `check_server` with caching on serves the cached snapshot
exactly when the entry exists and its age is strictly below the TTL;
in every other situation (caching off, no entry, or an entry at least
TTL old) it runs the synchronous check and unconditionally writes the
completed snapshot — success or failure — back into the cache before
returning it. -/
theorem check_server_cache_ttl (ttl : ℚ) (cache : CacheMap)
    (use_cache : Bool) (server : ServerConfig) (env : HostEnv) :
    (∀ c, use_cache = true → cache server.sname = some c →
      env.now - c.checked_at < ttl →
      check_server ttl cache use_cache server env = (c, cache)) ∧
    (use_cache = false →
      check_server ttl cache use_cache server env =
        (check_server_sync server env.hasGpuProcCmd env.checkTime env.oc,
          cachePut cache server.sname
            (check_server_sync server env.hasGpuProcCmd env.checkTime env.oc))) ∧
    (cache server.sname = none →
      check_server ttl cache use_cache server env =
        (check_server_sync server env.hasGpuProcCmd env.checkTime env.oc,
          cachePut cache server.sname
            (check_server_sync server env.hasGpuProcCmd env.checkTime env.oc))) ∧
    (∀ c, cache server.sname = some c → ttl ≤ env.now - c.checked_at →
      check_server ttl cache use_cache server env =
        (check_server_sync server env.hasGpuProcCmd env.checkTime env.oc,
          cachePut cache server.sname
            (check_server_sync server env.hasGpuProcCmd env.checkTime env.oc))) := by
  refine ⟨fun c h1 h2 h3 => ?_, fun h => ?_, fun h => ?_, fun c h1 h2 => ?_⟩
  · simp [check_server, h1, h2, h3]
  · simp [check_server, h]
  · cases use_cache <;> simp [check_server, h]
  · cases use_cache <;> simp [check_server, h1, not_lt.mpr h2]

/-- Claim C8: the remote executor returns the trimmed stdout for any
command that exits 0; on a non-zero exit it classifies the failure by
searching stderr — unresolved hostname, then refused connection, then
authorization failure, falling back to a generic remote-command error
that carries the trimmed stderr text — and a timeout yields the
timeout error. -/
theorem run_ssh_command_spec (host out err : String) (rc : Int) :
    (rc = 0 → run_ssh_command host (.completed rc out err) =
      .ok (String.mk (trimL out.data))) ∧
    (rc ≠ 0 →
      containsSubL "Could not resolve hostname".data err.data = true →
      run_ssh_command host (.completed rc out err) =
        .error (.unknownHost host)) ∧
    (rc ≠ 0 →
      containsSubL "Could not resolve hostname".data err.data = false →
      containsSubL "Connection refused".data err.data = true →
      run_ssh_command host (.completed rc out err) =
        .error (.connectionRefused host)) ∧
    (rc ≠ 0 →
      containsSubL "Could not resolve hostname".data err.data = false →
      containsSubL "Connection refused".data err.data = false →
      containsSubL "Permission denied".data err.data = true →
      run_ssh_command host (.completed rc out err) =
        .error (.permissionDenied host)) ∧
    (rc ≠ 0 →
      containsSubL "Could not resolve hostname".data err.data = false →
      containsSubL "Connection refused".data err.data = false →
      containsSubL "Permission denied".data err.data = false →
      run_ssh_command host (.completed rc out err) =
        .error (.remoteCommandError (String.mk (trimL err.data)))) ∧
    run_ssh_command host .timedOut = .error (.timeout host) := by
  refine ⟨fun h => ?_, fun h h1 => ?_, fun h h1 h2 => ?_,
    fun h h1 h2 h3 => ?_, fun h h1 h2 h3 => ?_, rfl⟩ <;>
    simp [run_ssh_command, h, *]

/-- Witness for C8 at a concrete refused connection and a concrete
clean exit. -/
theorem run_ssh_command_spec_witness :
    run_ssh_command "a" failRefused = .error (.connectionRefused "a") ∧
    run_ssh_command "a" (okOut " 42 ") = .ok "42" :=
  ⟨(run_ssh_command_spec "a" ""
        "ssh: connect to host a port 22: Connection refused" 255).2.2.1
      (by decide) (by decide) (by decide),
    (run_ssh_command_spec "a" " 42 " "" 0).1 rfl⟩

/-- Claim C3: whichever of the three mandatory probes (cpu, memory,
load-average) fails first, the snapshot is marked offline, carries that
first error's message, and has every GPU field absent — the remaining
metrics were never attempted. -/
theorem mandatory_failure_marks_offline (server : ServerConfig)
    (hp : Bool) (now : ℚ) (oc : CmdOutcomes) :
    (∀ e, run_ssh_command server.host oc.cpu = .error e →
      (check_server_sync server hp now oc).online = false ∧
      (check_server_sync server hp now oc).error = some e.message ∧
      gpuFieldsAbsent (check_server_sync server hp now oc)) ∧
    (∀ o e, run_ssh_command server.host oc.cpu = .ok o →
      run_ssh_command server.host oc.memory = .error e →
      (check_server_sync server hp now oc).online = false ∧
      (check_server_sync server hp now oc).error = some e.message ∧
      gpuFieldsAbsent (check_server_sync server hp now oc)) ∧
    (∀ o1 o2 e, run_ssh_command server.host oc.cpu = .ok o1 →
      run_ssh_command server.host oc.memory = .ok o2 →
      run_ssh_command server.host oc.load = .error e →
      (check_server_sync server hp now oc).online = false ∧
      (check_server_sync server hp now oc).error = some e.message ∧
      gpuFieldsAbsent (check_server_sync server hp now oc)) := by
  refine ⟨fun e h => ?_, fun o e h1 h2 => ?_, fun o1 o2 e h1 h2 h3 => ?_⟩ <;>
    simp [check_server_sync, gpuFieldsAbsent, *]

/-- Witness for C3: a concrete host whose memory probe is refused. -/
theorem mandatory_failure_marks_offline_witness :
    (check_server_sync ⟨"a", "a", true⟩ true 0 ocMemFail).online = false ∧
    (check_server_sync ⟨"a", "a", true⟩ true 0 ocMemFail).error =
      some "SSH failed: Connection refused to a" ∧
    gpuFieldsAbsent (check_server_sync ⟨"a", "a", true⟩ true 0 ocMemFail) :=
  (mandatory_failure_marks_offline ⟨"a", "a", true⟩ true 0 ocMemFail).2.1
    "10.0" (.connectionRefused "a") (by decide) (by decide)

/-- Claim C4: for a GPU-capable host whose three mandatory probes
succeed, a failure in any GPU-stage command leaves the snapshot online
with the GPU-specific error populated (and no host-level error) — GPU
trouble never flips the online flag. -/
theorem gpu_failure_keeps_online (server : ServerConfig) (hp : Bool)
    (now : ℚ) (oc : CmdOutcomes) (o1 o2 o3 : String)
    (hg : server.has_gpu = true)
    (h1 : run_ssh_command server.host oc.cpu = .ok o1)
    (h2 : run_ssh_command server.host oc.memory = .ok o2)
    (h3 : run_ssh_command server.host oc.load = .ok o3) :
    (∀ e, run_ssh_command server.host oc.gpu_usage = .error e →
      (check_server_sync server hp now oc).online = true ∧
      (check_server_sync server hp now oc).gpu_error = some e.message ∧
      (check_server_sync server hp now oc).error = none) ∧
    (∀ o4 e, run_ssh_command server.host oc.gpu_usage = .ok o4 →
      run_ssh_command server.host oc.gpu_memory = .error e →
      (check_server_sync server hp now oc).online = true ∧
      (check_server_sync server hp now oc).gpu_error = some e.message ∧
      (check_server_sync server hp now oc).error = none) ∧
    (∀ o4 o5 e, run_ssh_command server.host oc.gpu_usage = .ok o4 →
      run_ssh_command server.host oc.gpu_memory = .ok o5 →
      hp = true →
      run_ssh_command server.host oc.gpu_processes = .error e →
      (check_server_sync server hp now oc).online = true ∧
      (check_server_sync server hp now oc).gpu_error = some e.message ∧
      (check_server_sync server hp now oc).error = none) := by
  refine ⟨fun e h => ?_, fun o4 e g1 g2 => ?_, fun o4 o5 e g1 g2 g3 g4 => ?_⟩ <;>
    simp [check_server_sync, runGpuStage, *]

/-- Witness for C4: a concrete GPU host whose GPU-usage probe is
refused after the mandatory probes succeed. -/
theorem gpu_failure_keeps_online_witness :
    (check_server_sync ⟨"g", "g", true⟩ true 7 ocGpuFail).online = true ∧
    (check_server_sync ⟨"g", "g", true⟩ true 7 ocGpuFail).gpu_error =
      some "SSH failed: Connection refused to g" ∧
    (check_server_sync ⟨"g", "g", true⟩ true 7 ocGpuFail).error = none :=
  (gpu_failure_keeps_online ⟨"g", "g", true⟩ true 7 ocGpuFail
      "10.0" "20.0" "0.1, 0.2, 0.3" rfl (by decide) (by decide) (by decide)).1
    (.connectionRefused "g") (by decide)

end ComputeScout

namespace ComputeScout

/-- Claim C10 (amended): every snapshot carries the host identity
fields, the capture timestamp, and an online flag; the error field is
present exactly when the host is offline; when the host is online all
three mandatory metric keys are present (possibly holding absence).
When the host is offline the mandatory keys written before the first
failing command remain present — they are not necessarily absent, which
is the amendment forced by `snapshot_shape_cex`. -/
theorem snapshot_shape (server : ServerConfig) (hp : Bool) (now : ℚ)
    (oc : CmdOutcomes) :
    (check_server_sync server hp now oc).sname = server.sname ∧
    (check_server_sync server hp now oc).host = server.host ∧
    (check_server_sync server hp now oc).has_gpu = server.has_gpu ∧
    (check_server_sync server hp now oc).checked_at = now ∧
    ((check_server_sync server hp now oc).error.isSome ↔
      (check_server_sync server hp now oc).online = false) ∧
    ((check_server_sync server hp now oc).online = true →
      (check_server_sync server hp now oc).cpu_usage.isSome ∧
      (check_server_sync server hp now oc).memory_usage.isSome ∧
      (check_server_sync server hp now oc).load_average.isSome) := by
  cases h1 : run_ssh_command server.host oc.cpu <;>
    cases h2 : run_ssh_command server.host oc.memory <;>
      cases h3 : run_ssh_command server.host oc.load <;>
        cases hg : server.has_gpu <;>
          simp [check_server_sync, h1, h2, h3, hg]

/-- Counterexample to claim C10 as stated: when the cpu probe succeeds
but the memory probe fails, the snapshot is offline yet its
`cpu_usage` key is present — mandatory keys are not present "exactly
when online is true". -/
theorem snapshot_shape_cex :
    (check_server_sync ⟨"a", "a", false⟩ false 0 ocMemFail).online = false ∧
    (check_server_sync ⟨"a", "a", false⟩ false 0 ocMemFail).cpu_usage ≠ none := by
  decide

/-- Witness for C10's amended theorem at a fully successful check. -/
theorem snapshot_shape_witness :
    (check_server_sync ⟨"g", "g", true⟩ true 7 ocAllOk).cpu_usage.isSome ∧
    (check_server_sync ⟨"g", "g", true⟩ true 7 ocAllOk).memory_usage.isSome ∧
    (check_server_sync ⟨"g", "g", true⟩ true 7 ocAllOk).load_average.isSome :=
  (snapshot_shape ⟨"g", "g", true⟩ true 7 ocAllOk).2.2.2.2.2 (by decide)

/-- Claim C1 (code bug): the selection stage is supposed never to
raise, yet sorting an online candidate whose present `cpu_usage` key
holds `None` evaluates `None + ...` in `score_server` and raises
`TypeError` — `server.get('cpu_usage', 100)` defaults only for an
absent key, and the checker always writes the key for online hosts. -/
theorem selectBest_raises_on_none_metric :
    selectBest [snapNoneCpu] false none none =
      .error "TypeError: unsupported operand type(s) for +" := by decide

unseal Rat.add Rat.mul Rat.inv in
/-- Counterexample to claim C7 as stated: the memory parser does not
strip a trailing percent sign — `"12.5%"` parses to absence for
memory, while the cpu parser accepts it. -/
theorem parse_usage_percent_cex :
    parse_memory_usage "12.5%" = none ∧
    parse_cpu_usage "12.5%" = some (25 / 2) := by
  decide

unseal Rat.add Rat.mul Rat.inv in
/-- Claim C7 (amended): both parsers strip surrounding whitespace and
parse a decimal percentage, returning absence (never raising) on
non-numeric or empty input; the cpu parser additionally strips trailing
`%` characters while the memory parser does not; `"12.5"` parses to
`12.5` for both and `"abc"` to absence for both. -/
theorem parse_usage_amended :
    parse_cpu_usage "12.5" = some (25 / 2) ∧
    parse_memory_usage "12.5" = some (25 / 2) ∧
    parse_cpu_usage " 12.5% " = some (25 / 2) ∧
    parse_cpu_usage "12.5%%" = some (25 / 2) ∧
    parse_memory_usage " 12.5 " = some (25 / 2) ∧
    parse_cpu_usage "abc" = none ∧
    parse_memory_usage "abc" = none ∧
    parse_cpu_usage "" = none ∧
    parse_memory_usage "" = none ∧
    parse_cpu_usage "12.5 %" = some (25 / 2) ∧
    parse_memory_usage "12.5 %" = none := by
  decide

end ComputeScout
namespace ComputeScout

unseal Rat.add Rat.mul Rat.inv Rat.sub in
/-- Claim C9: the GPU-memory parser reads each line as comma-separated
`used,total` megabytes and derives `usedPercent = round(used/total*100, 1)`
(`0` when `total` is not positive), skipping malformed lines; zero
valid entries yield absence, never an empty present list; and the line
`"1000,4000"` yields used 1000, total 4000, usedPercent 25.0. -/
theorem parse_gpu_memory_entries :
    parse_gpu_memory "1000,4000" = some [⟨1000, 4000, 25⟩] ∧
    parse_gpu_memory "abc,40\n1000,4000" = some [⟨1000, 4000, 25⟩] ∧
    (∀ s : String, parse_gpu_memory s ≠ some []) ∧
    (∀ (s : String) (l : List GpuMemEntry), parse_gpu_memory s = some l →
      ∀ e ∈ l,
        (0 < e.total_mb →
          e.used_percent = pyRound1 ((e.used_mb : ℚ) / (e.total_mb : ℚ) * 100)) ∧
        (¬0 < e.total_mb → e.used_percent = 0)) := by
  refine ⟨by decide, by decide, fun s => ?_, fun s l h e he => ?_⟩
  · simp only [parse_gpu_memory]
    split
    · exact fun hc => by cases hc
    · split
      · exact fun hc => by cases hc
      · rename_i hne
        intro hc
        injection hc with hc
        simp [hc] at hne
  · have hline : ∃ line, parse_gpu_memory_line line = some e := by
      simp only [parse_gpu_memory] at h
      split at h
      · cases h
      · split at h
        · cases h
        · injection h with h
          subst h
          obtain ⟨line, -, hl⟩ := List.mem_filterMap.mp he
          exact ⟨line, hl⟩
    obtain ⟨line, hl⟩ := hline
    simp only [parse_gpu_memory_line] at hl
    split at hl
    · split at hl
      · injection hl with hl
        subst hl
        constructor
        · intro hpos
          simp only [if_pos hpos]
        · intro hneg
          simp only [if_neg hneg]
      · cases hl
    · cases hl

end ComputeScout
namespace ComputeScout

/-! ### Lemmas about `firstMinBy` and the stable sort, for claim C2 -/

/-- `firstMinBy` returns `none` exactly on the empty list. -/
theorem firstMinBy_eq_none_iff (f : Snapshot → ℚ) (l : List Snapshot) :
    firstMinBy f l = none ↔ l = [] := by
  cases l with
  | nil => simp [firstMinBy]
  | cons x xs =>
    simp only [firstMinBy]
    cases h : firstMinBy f xs
    · simp
    · simp only []
      constructor
      · intro hc; split at hc <;> cases hc
      · intro hc; cases hc

/-- The element `firstMinBy` picks attains the minimal score. -/
theorem firstMinBy_le (f : Snapshot → ℚ) (l : List Snapshot) :
    ∀ b, firstMinBy f l = some b → ∀ s ∈ l, f b ≤ f s := by
  induction l with
  | nil => intro b h; cases h
  | cons x xs ih =>
    intro b h s hs
    simp only [firstMinBy] at h
    cases hx : firstMinBy f xs with
    | none =>
      simp only [hx] at h
      obtain rfl := Option.some.inj h
      have hxs : xs = [] := (firstMinBy_eq_none_iff f xs).mp hx
      subst hxs
      rcases List.mem_singleton.mp hs with rfl
      exact le_refl _
    | some y =>
      simp only [hx] at h
      rcases List.mem_cons.mp hs with rfl | hs2
      · split at h
        · rename_i hxy
          obtain rfl := Option.some.inj h
          exact le_refl _
        · rename_i hxy
          obtain rfl := Option.some.inj h
          exact le_of_lt (lt_of_not_le hxy)
      · split at h
        · rename_i hxy
          obtain rfl := Option.some.inj h
          exact le_trans hxy (ih y hx s hs2)
        · rename_i hxy
          obtain rfl := Option.some.inj h
          exact ih y hx s hs2

/-- Every element placed before the one `firstMinBy` picks scores
strictly higher — the stable "first-seen wins" tie-break. -/
theorem firstMinBy_first (f : Snapshot → ℚ) (l : List Snapshot) :
    ∀ b, firstMinBy f l = some b →
      ∃ l1 l2, l = l1 ++ b :: l2 ∧ ∀ s ∈ l1, f b < f s := by
  induction l with
  | nil => intro b h; cases h
  | cons x xs ih =>
    intro b h
    simp only [firstMinBy] at h
    cases hx : firstMinBy f xs with
    | none =>
      simp only [hx] at h
      obtain rfl := Option.some.inj h
      exact ⟨[], xs, rfl, by simp⟩
    | some y =>
      simp only [hx] at h
      split at h
      · obtain rfl := Option.some.inj h
        exact ⟨[], xs, rfl, by simp⟩
      · rename_i hxy
        obtain rfl := Option.some.inj h
        obtain ⟨l1, l2, heq, hlt⟩ := ih y hx
        refine ⟨x :: l1, l2, by simp [heq], ?_⟩
        intro s hs
        rcases List.mem_cons.mp hs with rfl | hs2
        · exact lt_of_not_le hxy
        · exact hlt s hs2

/-- The chosen element is a member of the list. -/
theorem firstMinBy_mem (f : Snapshot → ℚ) (l : List Snapshot) (b : Snapshot)
    (h : firstMinBy f l = some b) : b ∈ l := by
  obtain ⟨l1, l2, rfl, -⟩ := firstMinBy_first f l b h
  simp

/-- `firstMinBy` only looks at the scores of list members. -/
theorem firstMinBy_congr (f g : Snapshot → ℚ) (l : List Snapshot)
    (h : ∀ s ∈ l, f s = g s) : firstMinBy f l = firstMinBy g l := by
  induction l with
  | nil => rfl
  | cons x xs ih =>
    have hx : f x = g x := h x (List.mem_cons_self x xs)
    have hxs : ∀ s ∈ xs, f s = g s := fun s hs => h s (List.mem_cons_of_mem x hs)
    cases hy : firstMinBy g xs with
    | none => simp only [firstMinBy, ih hxs, hy]
    | some y =>
      simp only [firstMinBy, ih hxs, hy]
      rw [hx, hxs y (firstMinBy_mem g xs y hy)]

/-- The head of the stable insertion sort by a score key is the first
element attaining the minimal score. -/
theorem insertionSort_head_firstMinBy (g : Snapshot → ℚ) (l : List Snapshot) :
    (l.insertionSort (fun a b => g a ≤ g b)).head? = firstMinBy g l := by
  induction l with
  | nil => rfl
  | cons x xs ih =>
    cases hx : xs.insertionSort (fun a b => g a ≤ g b) with
    | nil =>
      have hfm : firstMinBy g xs = none := by rw [← ih, hx]; rfl
      simp [List.insertionSort, firstMinBy, hx, hfm, List.orderedInsert]
    | cons y ys =>
      have hfm : firstMinBy g xs = some y := by rw [← ih, hx]; rfl
      by_cases hc : g x ≤ g y <;>
        simp [List.insertionSort, firstMinBy, hx, hfm, List.orderedInsert, hc]

/-- On a snapshot whose cpu and memory keys hold present numbers, the
source's sort key computes exactly the spec's score. -/
theorem score_server_eq_spec (s : Snapshot)
    (hc : s.cpu_usage.join.isSome) (hm : s.memory_usage.join.isSome) :
    score_server s = some (specScore s) := by
  rcases s with ⟨n, h, g, t, o, cu, mu, la, gu, gm, gp, er, ge⟩
  rcases cu with _ | cu
  · simp [Option.join] at hc
  rcases cu with _ | cu
  · simp [Option.join] at hc
  rcases mu with _ | mu
  · simp [Option.join] at hm
  rcases mu with _ | mu
  · simp [Option.join] at hm
  rcases gu with _ | gu
  · simp [score_server, specScore, gpuScoreTerm, Option.join]
  rcases gu with _ | gu
  · simp [score_server, specScore, gpuScoreTerm, Option.join]
  rcases gu with _ | ⟨a, tl⟩ <;>
    simp [score_server, specScore, gpuScoreTerm, Option.join]

/-- Claim C2: on a non-empty filtered candidate set whose cpu and
memory usages are all present numbers, the selection stage returns the
first candidate attaining the minimal score
`cpu + memory + mean GPU utilization` (GPU term 0 when absent): the
winner is a filtered candidate, scores no higher than any other, and
every candidate appearing before it in batch order scores strictly
higher, so equal scores resolve to the first-seen candidate. -/
theorem selectBest_ranks_by_score (rs : List Snapshot) (ng : Bool)
    (mc : Option ℚ) (mm : Option Int)
    (hne : filteredCandidates rs ng mc mm ≠ [])
    (hnum : ∀ s ∈ filteredCandidates rs ng mc mm,
      s.cpu_usage.join.isSome ∧ s.memory_usage.join.isSome) :
    ∃ b, selectBest rs ng mc mm = .ok (some b) ∧
      b ∈ filteredCandidates rs ng mc mm ∧
      (∀ s ∈ filteredCandidates rs ng mc mm, specScore b ≤ specScore s) ∧
      ∃ l1 l2, filteredCandidates rs ng mc mm = l1 ++ b :: l2 ∧
        ∀ s ∈ l1, specScore b < specScore s := by
  have hscore : ∀ s ∈ filteredCandidates rs ng mc mm,
      score_server s = some (specScore s) :=
    fun s hs => score_server_eq_spec s (hnum s hs).1 (hnum s hs).2
  have hgetd : ∀ s ∈ filteredCandidates rs ng mc mm,
      (fun a => (score_server a).getD 0) s = specScore s := by
    intro s hs
    simp only [hscore s hs, Option.getD_some]
  have hall : (filteredCandidates rs ng mc mm).all
      (fun s => (score_server s).isSome) = true := by
    rw [List.all_eq_true]
    intro s hs
    rw [hscore s hs]
    rfl
  have hempty : (filteredCandidates rs ng mc mm).isEmpty = false := by
    cases hl : filteredCandidates rs ng mc mm with
    | nil => exact absurd hl hne
    | cons a as => rfl
  have hhead : ((filteredCandidates rs ng mc mm).insertionSort
      (fun a b => (score_server a).getD 0 ≤ (score_server b).getD 0)).head? =
      firstMinBy specScore (filteredCandidates rs ng mc mm) := by
    rw [insertionSort_head_firstMinBy (fun a => (score_server a).getD 0)]
    exact firstMinBy_congr _ _ _ hgetd
  obtain ⟨b, hb⟩ : ∃ b,
      firstMinBy specScore (filteredCandidates rs ng mc mm) = some b := by
    cases h : firstMinBy specScore (filteredCandidates rs ng mc mm) with
    | none => exact absurd ((firstMinBy_eq_none_iff _ _).mp h) hne
    | some b => exact ⟨b, rfl⟩
  refine ⟨b, ?_, firstMinBy_mem _ _ _ hb, firstMinBy_le _ _ b hb,
    firstMinBy_first _ _ b hb⟩
  simp only [selectBest, hempty, hall, hhead, hb]
  rfl

/-- Witness for C2: two equal-score candidates resolve to the one
appearing first in the batch. -/
theorem selectBest_ranks_by_score_witness :
    ∃ b, selectBest [snapCpu "x" 5 5, snapCpu "y" 5 5] false none none =
        .ok (some b) ∧
      b ∈ filteredCandidates [snapCpu "x" 5 5, snapCpu "y" 5 5] false none none ∧
      (∀ s ∈ filteredCandidates [snapCpu "x" 5 5, snapCpu "y" 5 5] false none none,
        specScore b ≤ specScore s) ∧
      ∃ l1 l2,
        filteredCandidates [snapCpu "x" 5 5, snapCpu "y" 5 5] false none none =
          l1 ++ b :: l2 ∧
        ∀ s ∈ l1, specScore b < specScore s :=
  selectBest_ranks_by_score [snapCpu "x" 5 5, snapCpu "y" 5 5] false none none
    (by decide) (by decide)

end ComputeScout
namespace ComputeScout

unseal Rat.sub in
/-- Witness for C5: a five-second-old entry under a ten-second TTL is
served from the cache unchanged. -/
theorem check_server_cache_ttl_witness :
    check_server 10 cacheA true ⟨"a", "a", false⟩ envA =
      (snapCpu "a" 1 1, cacheA) :=
  (check_server_cache_ttl 10 cacheA true ⟨"a", "a", false⟩ envA).1
    (snapCpu "a" 1 1) rfl (by decide) (by decide)

unseal Rat.add Rat.mul Rat.inv Rat.sub in
/-- Witness for C9: the derived percentage of the parsed `"1000,4000"`
entry follows the rounding formula. -/
theorem parse_gpu_memory_entries_witness :
    (⟨1000, 4000, 25⟩ : GpuMemEntry).used_percent =
      pyRound1 (((⟨1000, 4000, 25⟩ : GpuMemEntry).used_mb : ℚ) /
        ((⟨1000, 4000, 25⟩ : GpuMemEntry).total_mb : ℚ) * 100) :=
  (parse_gpu_memory_entries.2.2.2 "1000,4000" [⟨1000, 4000, 25⟩] (by decide)
    ⟨1000, 4000, 25⟩ (by decide)).1 (by decide)

end ComputeScout
